import Mathlib

/-!
Verification of the skeletal binding-resolution cache (`UsdSkel.Cache`)
described by the specification and exercised by
`pxr/usd/lib/usdSkel/testenv/testUsdSkelCache.py`.

The resolver itself lives in native library code that is not part of the
source excerpt; following the specification (sections 2-4, 6-8) we model
the scene-graph data the cache consumes, the four resolvers, and the
cache lookups, and prove the spec's testable properties against that
model.  Paths are modelled as lists of path components ordered from the
root, so `/InheritedBindings/Model1` is `["InheritedBindings", "Model1"]`.
-/

/-- A hierarchical scene path: the list of prim names from the stage root. -/
abbrev SPath := List String

/-- The node types the cache distinguishes: skeleton roots, skeleton
definitions, recognized animation sources (`PackedJointAnimation`),
plain transforms, container scopes, geometry-bearing prims (meshes),
and typeless prims. -/
inductive PrimType where
  | skelRoot
  | skeleton
  | packedJointAnimation
  | xform
  | scope
  | mesh
  | typeless
deriving DecidableEq

/-- Modelled from the spec: a Node of the scene graph (spec section 3).
It has a unique hierarchical path, an active/inactive flag, typed
relationships ("skeleton", "animationSource", each zero-or-one target)
and attributes (an optional authored joint-order override, the joint
sequence for skeleton prims, and whether per-point skinning weights are
authored). -/
structure Prim where
  path : SPath
  primType : PrimType
  active : Bool := true
  skelRel : Option SPath := none
  animSourceRel : Option SPath := none
  jointOrderAttr : Option (List String) := none
  joints : List String := []
  hasSkinningWeights : Bool := false
deriving DecidableEq

/-- Modelled from the spec: the external scene-graph collaborator
(spec section 6), a stage holding prims listed in pre-order. -/
structure Stage where
  prims : List Prim
deriving DecidableEq

/-- Look a prim up by path, as `stage.GetPrimAtPath` does in the test. -/
def Stage.getPrimAtPath (s : Stage) (p : SPath) : Option Prim :=
  s.prims.find? (fun q => q.path == p)

/-- A stage is well formed when prim paths are unique (spec section 3:
a path is a unique identity). -/
@[reducible] def Stage.wellFormed (s : Stage) : Prop :=
  (s.prims.map Prim.path).Nodup

/-- An AnimationQuery result; `none` at use sites models the invalid
query object. -/
structure AnimQuery where
  animPath : SPath
deriving DecidableEq

/-- A SkeletonQuery result: skeleton definition path, its joint order,
and the optional animation query attached to the skeleton. -/
structure SkelQuery where
  skelPath : SPath
  joints : List String
  animQuery : Option AnimQuery
deriving DecidableEq

/-- Modelled from the spec: `AnimationQueryResolver.Resolve` (section
4.2): invalid if the node is null, inactive, or not a recognized
animation-source type; otherwise wraps the node. -/
def resolveAnimQuery : Option Prim → Option AnimQuery
  | none => none
  | some p =>
    if p.active && p.primType == PrimType.packedJointAnimation then
      some { animPath := p.path }
    else none

/-- Modelled from the spec: `SkeletonQueryResolver.Resolve` (section
4.3): invalid if the node is null, inactive or not a skeleton
definition; otherwise reads the joint order and resolves the optional
animation-source relationship found on the skeleton node itself. -/
def resolveSkelQuery (s : Stage) : Option Prim → Option SkelQuery
  | none => none
  | some p =>
    if p.active && p.primType == PrimType.skeleton then
      some { skelPath := p.path
             joints := p.joints
             animQuery := resolveAnimQuery (p.animSourceRel.bind s.getPrimAtPath) }
    else none

/-- A recorded Binding: a prim path associated with the SkeletonQuery
resolved from its authored "skeleton" relationship. -/
structure Binding where
  primPath : SPath
  query : SkelQuery
deriving DecidableEq

/-- The populated cache: the list of direct bindings recorded by
`Populate`, in pre-order. -/
structure SkelCache where
  bindings : List Binding
deriving DecidableEq

/-- A freshly created cache, before any `Populate`. -/
def SkelCache.empty : SkelCache := { bindings := [] }

/-- The SkeletonQuery a prim contributes directly: the resolution of its
authored "skeleton" relationship target, if any. -/
def directSkelResult (s : Stage) (p : Prim) : Option SkelQuery :=
  p.skelRel.bind (fun t => resolveSkelQuery s (s.getPrimAtPath t))

/-- The binding the `Populate` walk records at a visited prim `p`: one
is recorded when `p` lies in the root's subtree and its authored
"skeleton" relationship resolves. -/
def bindingOf (s : Stage) (r : Prim) (p : Prim) : Option Binding :=
  if r.path.isPrefixOf p.path then
    (directSkelResult s p).map (fun q => { primPath := p.path, query := q })
  else none

/-- Modelled from the spec: `BindingResolver.Populate` (section 4.4):
fails only when the root is null or not a skeleton root; otherwise walks
the root's subtree in pre-order and records a binding at each node whose
authored "skeleton" relationship resolves; unresolved targets yield no
binding and do not abort the walk. -/
def populate (s : Stage) (root : Option Prim) : Option SkelCache :=
  match root with
  | none => none
  | some r =>
    if r.primType == PrimType.skelRoot then
      some { bindings := s.prims.filterMap (bindingOf s r) }
    else none

/-- `GetDirectBinding` on a path: the binding recorded exactly at it. -/
def directBinding (c : SkelCache) (p : SPath) : Option SkelQuery :=
  (c.bindings.find? (fun b => b.primPath == p)).map Binding.query

/-- Modelled from the spec: `Cache.GetSkelQuery` (sections 6, 8): the
binding authored exactly at the queried node, invalid for a null prim. -/
def getSkelQuery (c : SkelCache) : Option Prim → Option SkelQuery
  | none => none
  | some p => directBinding c p.path

/-- Ancestor walk over a reversed path: try the direct binding at the
path, else recurse to the parent (drop the last component). -/
def lookupInheritedRev (c : SkelCache) : SPath → Option SkelQuery
  | [] => directBinding c []
  | x :: xs =>
    match directBinding c ((x :: xs).reverse) with
    | some q => some q
    | none => lookupInheritedRev c xs

/-- Modelled from the spec: `BindingResolver.GetInheritedBinding`
(section 4.4): the direct binding at the path if present, else the
nearest ancestor's binding, invalid when no ancestor carries one. -/
def lookupInherited (c : SkelCache) (p : SPath) : Option SkelQuery :=
  lookupInheritedRev c p.reverse

/-- `Cache.GetInheritedSkelQuery` on a prim. -/
def getInheritedSkelQuery (c : SkelCache) : Option Prim → Option SkelQuery
  | none => none
  | some p => lookupInherited c p.path

/-- Modelled from the spec: `Cache.GetAnimQuery` (sections 4.2, 6)
resolves directly through the AnimationQueryResolver; it does not
consult populated bindings, so it works on a fresh cache. -/
def getAnimQuery (_c : SkelCache) (p : Option Prim) : Option AnimQuery :=
  resolveAnimQuery p

/-- A SkinningQuery result: the target prim, its rigid-vs-deformed
flag, its resolved joint order, and the optional joint-order mapper. -/
structure SkinningQuery where
  primPath : SPath
  rigid : Bool
  jointOrder : List String
  mapper : Option (List Nat)
deriving DecidableEq

/-- `SkinningQuery.IsRigidlyDeformed`. -/
def SkinningQuery.isRigidlyDeformed (q : SkinningQuery) : Bool := q.rigid

/-- A prim is geometry-bearing when it is an actual gprim (mesh), not a
pure container scope, transform, or other non-renderable node. -/
def isGeometryBearing (p : Prim) : Bool := p.primType == PrimType.mesh

/-- Modelled from the spec: the Mapper construction (section 4.5, step
4): built only when the local joint order differs from the skeleton's
canonical order, recording the index permutation from local order to
skeleton order; absent when the orders match. -/
def buildMapper (localOrder canonical : List String) : Option (List Nat) :=
  if localOrder == canonical then none
  else some (localOrder.map (fun j => canonical.indexOf j))

/-- Modelled from the spec: `SkinningQueryResolver.Resolve` /
`Cache.GetSkinningQuery` (section 4.5): invalid on a non-geometry
container scope; otherwise resolves the inherited skeleton binding
(failing if none), marks the target rigid exactly when it authors no
per-point skinning weights, takes the authored joint-order override or
the skeleton's canonical order, and builds the optional mapper. -/
def getSkinningQuery (_s : Stage) (c : SkelCache) : Option Prim → Option SkinningQuery
  | none => none
  | some p =>
    if isGeometryBearing p then
      match lookupInherited c p.path with
      | none => none
      | some sq =>
        let lo := p.jointOrderAttr.getD sq.joints
        some { primPath := p.path
               rigid := !p.hasSkinningWeights
               jointOrder := lo
               mapper := buildMapper lo sq.joints }
    else none

/-- Modelled from the spec: the memoizing PathKeyedCache (section 4.1)
for skeleton queries: populated bindings plus a memo of results already
served, mutated on first access. -/
structure CacheState where
  base : SkelCache
  memo : List (SPath × Option SkelQuery)
deriving DecidableEq

/-- Modelled from the spec: a cached `GetSkelQuery` access (sections
2, 4.1): serve the memoized result on a hit; on a miss compute it from
the populated bindings and record it. -/
def getSkelQueryM (cs : CacheState) (p : Prim) : Option SkelQuery × CacheState :=
  match cs.memo.find? (fun e => e.1 == p.path) with
  | some e => (e.2, cs)
  | none =>
    let r := getSkelQuery cs.base (some p)
    (r, { cs with memo := (p.path, r) :: cs.memo })

/-!
The concrete scene of the test's `populate.usda`, reconstructed from the
assertions of `test_Populate` and the spec's section 8 scenario: a
`SkelRoot` at `/InheritedBindings` with bound models, non-skinnable
scopes, skinnable gprims, and skeletons/animations at the stage root.
`/Skel1`'s animation source `/InactiveAnim` is inactive.
-/

/-- The `SkelRoot` prim `/InheritedBindings`. -/
def rootPrim : Prim :=
  { path := ["InheritedBindings"], primType := PrimType.skelRoot }

/-- `/InheritedBindings/Model1`, bound to `/Skel1`. -/
def model1Prim : Prim :=
  { path := ["InheritedBindings", "Model1"], primType := PrimType.scope
    skelRel := some ["Skel1"] }

/-- `/InheritedBindings/Model1/A`: an animationSource but no skeleton
relationship. -/
def model1APrim : Prim :=
  { path := ["InheritedBindings", "Model1", "A"], primType := PrimType.scope
    animSourceRel := some ["Anim1"] }

/-- `/InheritedBindings/Model1/A/B`, bound to `/Skel2`. -/
def model1ABPrim : Prim :=
  { path := ["InheritedBindings", "Model1", "A", "B"], primType := PrimType.scope
    skelRel := some ["Skel2"] }

/-- `/InheritedBindings/Model1/A/B/Gprim`: geometry with no binding of
its own. -/
def gprimPrim : Prim :=
  { path := ["InheritedBindings", "Model1", "A", "B", "Gprim"]
    primType := PrimType.mesh }

/-- `/InheritedBindings/Model1/C`, bound to `/Skel3`. -/
def model1CPrim : Prim :=
  { path := ["InheritedBindings", "Model1", "C"], primType := PrimType.scope
    skelRel := some ["Skel3"] }

/-- `/InheritedBindings/Model1/NonRigidScope1`: a pure container scope. -/
def nonRigidScope1Prim : Prim :=
  { path := ["InheritedBindings", "Model1", "NonRigidScope1"]
    primType := PrimType.scope }

/-- `/InheritedBindings/Model1/NonRigidScope1/A`: geometry, no weights,
joint order `["A", "B", "C"]` differing from `/Skel1`'s order. -/
def nonRigidScope1APrim : Prim :=
  { path := ["InheritedBindings", "Model1", "NonRigidScope1", "A"]
    primType := PrimType.mesh
    jointOrderAttr := some ["A", "B", "C"] }

/-- `/InheritedBindings/Model1/NonRigidScope1/B`: geometry with authored
per-point skinning weights, joint order matching `/Skel1`'s. -/
def nonRigidScope1BPrim : Prim :=
  { path := ["InheritedBindings", "Model1", "NonRigidScope1", "B"]
    primType := PrimType.mesh
    hasSkinningWeights := true }

/-- `/InheritedBindings/Model1/NonRigidScope2`: a pure container scope. -/
def nonRigidScope2Prim : Prim :=
  { path := ["InheritedBindings", "Model1", "NonRigidScope2"]
    primType := PrimType.scope }

/-- `/InheritedBindings/Model1/NonRigidScope2/A`: geometry, no weights,
joint order `["A", "B", "C"]`. -/
def nonRigidScope2APrim : Prim :=
  { path := ["InheritedBindings", "Model1", "NonRigidScope2", "A"]
    primType := PrimType.mesh
    jointOrderAttr := some ["A", "B", "C"] }

/-- `/InheritedBindings/Model1/NonRigidScope2/B`: geometry, no weights,
no joint-order override. -/
def nonRigidScope2BPrim : Prim :=
  { path := ["InheritedBindings", "Model1", "NonRigidScope2", "B"]
    primType := PrimType.mesh }

/-- `/InheritedBindings/Model1/RigidScopeParent`: a pure container scope. -/
def rigidScopeParentPrim : Prim :=
  { path := ["InheritedBindings", "Model1", "RigidScopeParent"]
    primType := PrimType.scope }

/-- `/InheritedBindings/Model1/RigidScopeParent/RigidScope`: a pure
container scope. -/
def rigidScopePrim : Prim :=
  { path := ["InheritedBindings", "Model1", "RigidScopeParent", "RigidScope"]
    primType := PrimType.scope }

/-- `/InheritedBindings/Model1/RigidScopeParent/RigidScope/A`: geometry. -/
def rigidScopeAPrim : Prim :=
  { path := ["InheritedBindings", "Model1", "RigidScopeParent", "RigidScope", "A"]
    primType := PrimType.mesh }

/-- `/InheritedBindings/Model1/RigidScopeParent/RigidScope/B`: geometry. -/
def rigidScopeBPrim : Prim :=
  { path := ["InheritedBindings", "Model1", "RigidScopeParent", "RigidScope", "B"]
    primType := PrimType.mesh }

/-- `/InheritedBindings/Model2`: a scope with no bound skeleton. -/
def model2Prim : Prim :=
  { path := ["InheritedBindings", "Model2"], primType := PrimType.scope }

/-- `/InheritedBindings/Model3`. -/
def model3Prim : Prim :=
  { path := ["InheritedBindings", "Model3"], primType := PrimType.scope }

/-- `/InheritedBindings/Model3/SkelWithInactiveAnim`, bound to `/Skel1`
whose animation source is inactive. -/
def skelWithInactiveAnimPrim : Prim :=
  { path := ["InheritedBindings", "Model3", "SkelWithInactiveAnim"]
    primType := PrimType.scope, skelRel := some ["Skel1"] }

/-- `/Skel1`: joints `["A", "C", "B"]`, animation source the inactive
`/InactiveAnim`. -/
def skel1Prim : Prim :=
  { path := ["Skel1"], primType := PrimType.skeleton
    joints := ["A", "C", "B"], animSourceRel := some ["InactiveAnim"] }

/-- `/Skel2`: animation source `/Anim1`. -/
def skel2Prim : Prim :=
  { path := ["Skel2"], primType := PrimType.skeleton
    joints := ["A", "B"], animSourceRel := some ["Anim1"] }

/-- `/Skel3`: animation source `/Anim2`. -/
def skel3Prim : Prim :=
  { path := ["Skel3"], primType := PrimType.skeleton
    joints := ["A", "B"], animSourceRel := some ["Anim2"] }

/-- `/Anim1`: an active packed joint animation. -/
def anim1Prim : Prim :=
  { path := ["Anim1"], primType := PrimType.packedJointAnimation }

/-- `/Anim2`: an active packed joint animation. -/
def anim2Prim : Prim :=
  { path := ["Anim2"], primType := PrimType.packedJointAnimation }

/-- `/InactiveAnim`: a deactivated packed joint animation. -/
def inactiveAnimPrim : Prim :=
  { path := ["InactiveAnim"], primType := PrimType.packedJointAnimation
    active := false }

/-- The test scene, in pre-order. -/
def testStage : Stage :=
  { prims :=
    [ rootPrim, model1Prim, model1APrim, model1ABPrim, gprimPrim, model1CPrim
    , nonRigidScope1Prim, nonRigidScope1APrim, nonRigidScope1BPrim
    , nonRigidScope2Prim, nonRigidScope2APrim, nonRigidScope2BPrim
    , rigidScopeParentPrim, rigidScopePrim, rigidScopeAPrim, rigidScopeBPrim
    , model2Prim, model3Prim, skelWithInactiveAnimPrim
    , skel1Prim, skel2Prim, skel3Prim, anim1Prim, anim2Prim, inactiveAnimPrim
    ] }

/-- The cache produced by populating `/InheritedBindings` on the test
scene. -/
def testCache : SkelCache :=
  (populate testStage (testStage.getPrimAtPath ["InheritedBindings"])).getD SkelCache.empty

/-- `/Anim` of `test_AnimQuery`: a `PackedJointAnimation` prim. -/
def animPrim : Prim :=
  { path := ["Anim"], primType := PrimType.packedJointAnimation }

/-- `/Foo` of `test_AnimQuery`: a typeless prim. -/
def fooPrim : Prim :=
  { path := ["Foo"], primType := PrimType.typeless }

/-- `/Bar` of `test_AnimQuery`: an `Xform` prim. -/
def barPrim : Prim :=
  { path := ["Bar"], primType := PrimType.xform }


theorem Stage.getPrimAtPath_path {s : Stage} {t : SPath} {p : Prim}
    (h : s.getPrimAtPath t = some p) : p.path = t := by
  unfold Stage.getPrimAtPath at h
  have hb := List.find?_some h
  simp only [] at hb
  exact eq_of_beq hb

theorem resolveSkelQuery_some_of {s : Stage} {p : Prim} (ha : p.active = true)
    (ht : p.primType = PrimType.skeleton) :
    resolveSkelQuery s (some p) =
      some { skelPath := p.path, joints := p.joints
             animQuery := resolveAnimQuery (p.animSourceRel.bind s.getPrimAtPath) } := by
  simp [resolveSkelQuery, ha, ht]

theorem resolveSkelQuery_eq_some {s : Stage} {op : Option Prim} {sq : SkelQuery}
    (h : resolveSkelQuery s op = some sq) :
    ∃ p, op = some p ∧ p.active = true ∧ p.primType = PrimType.skeleton ∧
      sq = { skelPath := p.path, joints := p.joints
             animQuery := resolveAnimQuery (p.animSourceRel.bind s.getPrimAtPath) } := by
  match op with
  | none => exact Option.noConfusion h
  | some p =>
    refine ⟨p, rfl, ?_⟩
    simp only [resolveSkelQuery] at h
    split at h
    case isTrue hc =>
      rw [Bool.and_eq_true, beq_iff_eq] at hc
      exact ⟨hc.1, hc.2, (Option.some.inj h).symm⟩
    case isFalse => exact Option.noConfusion h

theorem resolveAnimQuery_inactive {p : Prim} (ha : p.active = false) :
    resolveAnimQuery (some p) = none := by
  simp [resolveAnimQuery, ha]

theorem populate_bindings {s : Stage} {r : Prim} {c : SkelCache}
    (hpop : populate s (some r) = some c) :
    c.bindings = s.prims.filterMap (bindingOf s r) := by
  simp only [populate] at hpop
  split at hpop
  case isTrue =>
    rw [← Option.some.inj hpop]
  case isFalse => exact Option.noConfusion hpop

theorem bindingOf_path {s : Stage} {r p : Prim} {b : Binding}
    (h : bindingOf s r p = some b) : b.primPath = p.path := by
  unfold bindingOf at h
  split at h
  · obtain ⟨q, _, rfl⟩ := Option.map_eq_some'.mp h
    rfl
  · exact Option.noConfusion h

theorem find?_filterMap_bindingOf (s : Stage) (r : Prim) {prim : Prim} :
    ∀ {l : List Prim}, (l.map Prim.path).Nodup → prim ∈ l →
      (l.filterMap (bindingOf s r)).find? (fun b => b.primPath == prim.path) =
        bindingOf s r prim := by
  intro l
  induction l with
  | nil => intro _ hmem; exact absurd hmem (List.not_mem_nil prim)
  | cons q l ih =>
    intro hnd hmem
    rw [List.map_cons, List.nodup_cons] at hnd
    obtain ⟨hq, hnd'⟩ := hnd
    rw [List.filterMap_cons]
    rcases List.mem_cons.mp hmem with rfl | hm
    · cases hb : bindingOf s r prim with
      | some b =>
        simp only [hb]
        rw [List.find?_cons_of_pos _ (by rw [bindingOf_path hb]; exact beq_self_eq_true prim.path)]
      | none =>
        simp only [hb]
        rw [List.find?_eq_none]
        intro b hbmem
        obtain ⟨p', hp'm, hp'⟩ := List.mem_filterMap.mp hbmem
        intro hcontra
        have hpp : p'.path = prim.path := by
          rw [← bindingOf_path hp']
          exact eq_of_beq hcontra
        have hmm := List.mem_map_of_mem Prim.path hp'm
        rw [hpp] at hmm
        exact hq hmm
    · have hqp : q.path ≠ prim.path := by
        intro he
        apply hq
        rw [he]
        exact List.mem_map_of_mem Prim.path hm
      cases hb : bindingOf s r q with
      | some b =>
        simp only [hb]
        rw [List.find?_cons_of_neg]
        · exact ih hnd' hm
        · rw [bindingOf_path hb]
          simp [hqp]
      | none =>
        simp only [hb]
        exact ih hnd' hm

theorem getSkelQuery_populate {s : Stage} {r : Prim} {c : SkelCache} {prim : Prim}
    (hw : s.wellFormed) (hpop : populate s (some r) = some c) (hmem : prim ∈ s.prims) :
    getSkelQuery c (some prim) =
      if r.path.isPrefixOf prim.path then directSkelResult s prim else none := by
  show directBinding c prim.path = _
  unfold directBinding
  rw [populate_bindings hpop, find?_filterMap_bindingOf s r hw hmem]
  unfold bindingOf
  split
  · cases directSkelResult s prim <;> simp
  · rfl

theorem lookupInherited_eq (c : SkelCache) (p : SPath) :
    lookupInherited c p =
      match directBinding c p with
      | some q => some q
      | none => if p = [] then none else lookupInherited c p.dropLast := by
  induction p using List.reverseRecOn with
  | nil =>
    cases h : directBinding c [] <;> simp [lookupInherited, lookupInheritedRev, h]
  | append_singleton l a _ih =>
    have h1 : (l ++ [a]).reverse = a :: l.reverse := by simp
    have h2 : (a :: l.reverse).reverse = l ++ [a] := by simp
    cases h : directBinding c (l ++ [a]) with
    | some q => simp [lookupInherited, h1, lookupInheritedRev, h2, h]
    | none => simp [lookupInherited, h1, lookupInheritedRev, h2, h]

theorem lookupInherited_direct {c : SkelCache} {p : SPath} {q : SkelQuery}
    (h : directBinding c p = some q) : lookupInherited c p = some q := by
  rw [lookupInherited_eq, h]

theorem lookupInherited_step {c : SkelCache} {p : SPath} (hne : p ≠ [])
    (h : directBinding c p = none) :
    lookupInherited c p = lookupInherited c p.dropLast := by
  rw [lookupInherited_eq, h]
  simp [hne]

theorem lookupInherited_none {c : SkelCache} {p : SPath}
    (h : ∀ a ∈ p.inits, directBinding c a = none) : lookupInherited c p = none := by
  induction p using List.reverseRecOn with
  | nil =>
    rw [lookupInherited_eq, h [] (by simp [List.mem_inits])]
    simp
  | append_singleton l a ih =>
    rw [lookupInherited_eq, h (l ++ [a]) (by simp [List.mem_inits])]
    have hl : lookupInherited c l = none :=
      ih (fun a' ha' => h a'
        ((List.mem_inits _ _).mpr (((List.mem_inits _ _).mp ha').trans (List.prefix_append l [a]))))
    simp [hl]

/-!
The claims.
-/

/-- C1: a node that carries an animation-source relationship but no
authored "skeleton" relationship never acquires a skeleton binding:
after any successful `Populate`, `GetSkelQuery` on it is invalid. -/
theorem animSource_alone_never_binds {s : Stage} {r : Prim} {c : SkelCache}
    {prim : Prim} {a : SPath}
    (hw : s.wellFormed) (hpop : populate s (some r) = some c) (hmem : prim ∈ s.prims)
    (_hanim : prim.animSourceRel = some a) (hskel : prim.skelRel = none) :
    getSkelQuery c (some prim) = none := by
  rw [getSkelQuery_populate hw hpop hmem]
  have hd : directSkelResult s prim = none := by
    unfold directSkelResult
    rw [hskel]
    rfl
  rw [hd, ite_self]

/-- C1 witness: `/InheritedBindings/Model1/A` of the test scene carries
`animationSource = /Anim1` but no skeleton relationship, and its
`GetSkelQuery` is invalid. -/
theorem animSource_alone_never_binds_witness :
    getSkelQuery testCache (some model1APrim) = none :=
  @animSource_alone_never_binds testStage rootPrim testCache model1APrim ["Anim1"]
    (by decide) (by rfl) (by decide) (by rfl) (by rfl)

/-- C2: after `Populate` of an enclosing root, a node with an authored
"skeleton" relationship whose target resolves has a valid
`GetSkelQuery`, and the returned skeleton path is the relationship
target's path. -/
theorem authored_binding_resolves_skelQuery {s : Stage} {r : Prim} {c : SkelCache}
    {prim : Prim} {t : SPath} {sq : SkelQuery}
    (hw : s.wellFormed) (hpop : populate s (some r) = some c) (hmem : prim ∈ s.prims)
    (hpref : r.path.isPrefixOf prim.path = true)
    (hrel : prim.skelRel = some t)
    (hres : resolveSkelQuery s (s.getPrimAtPath t) = some sq) :
    getSkelQuery c (some prim) = some sq ∧ sq.skelPath = t := by
  constructor
  · rw [getSkelQuery_populate hw hpop hmem, if_pos hpref]
    unfold directSkelResult
    rw [hrel]
    exact hres
  · obtain ⟨tp, htp, _, _, rfl⟩ := resolveSkelQuery_eq_some hres
    exact Stage.getPrimAtPath_path htp

/-- C2 witness: `/InheritedBindings/Model1/A/B` is bound to `/Skel2`
whose animation node is `/Anim1`, and `/InheritedBindings/Model1` is
bound to `/Skel1` with an invalid animation query. -/
theorem authored_binding_resolves_skelQuery_witness :
    (getSkelQuery testCache (some model1ABPrim) =
        some { skelPath := ["Skel2"], joints := ["A", "B"]
               animQuery := some { animPath := ["Anim1"] } } ∧
      SkelQuery.skelPath
        { skelPath := ["Skel2"], joints := ["A", "B"]
          animQuery := some { animPath := ["Anim1"] } } = ["Skel2"]) ∧
    getSkelQuery testCache (some model1Prim) =
      some { skelPath := ["Skel1"], joints := ["A", "C", "B"], animQuery := none } :=
  ⟨@authored_binding_resolves_skelQuery testStage rootPrim testCache model1ABPrim
      ["Skel2"]
      { skelPath := ["Skel2"], joints := ["A", "B"]
        animQuery := some { animPath := ["Anim1"] } }
      (by decide) (by rfl) (by decide) (by rfl) (by rfl) (by rfl),
   by decide⟩

/-- C3: `GetInheritedSkelQuery` on a node equals its own `GetSkelQuery`
when a direct binding exists, otherwise recurses to the parent (hence
resolves to the nearest bound ancestor), and is invalid when no prefix
of the node's path carries a binding. -/
theorem inherited_skelQuery_spec (c : SkelCache) (prim : Prim) :
    getInheritedSkelQuery c (some prim) =
      (match getSkelQuery c (some prim) with
       | some q => some q
       | none => if prim.path = [] then none
                 else lookupInherited c prim.path.dropLast) ∧
    ((∀ a ∈ prim.path.inits, directBinding c a = none) →
      getInheritedSkelQuery c (some prim) = none) := by
  constructor
  · exact lookupInherited_eq c prim.path
  · intro h
    exact lookupInherited_none h

/-- C3 witness: `/InheritedBindings/Model2` has no bound ancestor and
its inherited query is invalid; the inherited query of the unbound
`/InheritedBindings/Model1/A/B/Gprim` equals the `GetSkelQuery` of its
nearest bound ancestor `/InheritedBindings/Model1/A/B`. -/
theorem inherited_skelQuery_spec_witness :
    getInheritedSkelQuery testCache (some model2Prim) = none ∧
    getInheritedSkelQuery testCache (some gprimPrim) =
      getSkelQuery testCache (some model1ABPrim) :=
  ⟨(inherited_skelQuery_spec testCache model2Prim).2 (by decide), by decide⟩

/-- C4: a node bound to a skeleton whose animation-source target is
inactive still gets a valid SkeletonQuery, but that query's
`GetAnimQuery` is the invalid (falsy) result. -/
theorem bound_skel_inactive_anim_query {s : Stage} {r : Prim} {c : SkelCache}
    {prim tp ap : Prim} {t a : SPath}
    (hw : s.wellFormed) (hpop : populate s (some r) = some c) (hmem : prim ∈ s.prims)
    (hpref : r.path.isPrefixOf prim.path = true)
    (hrel : prim.skelRel = some t)
    (ht : s.getPrimAtPath t = some tp)
    (htact : tp.active = true) (httyp : tp.primType = PrimType.skeleton)
    (hanim : tp.animSourceRel = some a)
    (ha : s.getPrimAtPath a = some ap) (hinact : ap.active = false) :
    ∃ sq, getSkelQuery c (some prim) = some sq ∧ sq.animQuery = none := by
  have hq : getSkelQuery c (some prim) =
      some { skelPath := tp.path, joints := tp.joints
             animQuery := resolveAnimQuery (tp.animSourceRel.bind s.getPrimAtPath) } := by
    rw [getSkelQuery_populate hw hpop hmem, if_pos hpref]
    unfold directSkelResult
    rw [hrel]
    show resolveSkelQuery s (s.getPrimAtPath t) = _
    rw [ht]
    exact resolveSkelQuery_some_of htact httyp
  refine ⟨_, hq, ?_⟩
  show resolveAnimQuery (tp.animSourceRel.bind s.getPrimAtPath) = none
  rw [hanim]
  show resolveAnimQuery (s.getPrimAtPath a) = none
  rw [ha]
  exact resolveAnimQuery_inactive hinact

/-- C4 witness: `/InheritedBindings/Model3/SkelWithInactiveAnim` is
bound to `/Skel1`, whose animation source `/InactiveAnim` is inactive:
the skeleton query is valid with skeleton path `/Skel1`, and its
animation query is invalid. -/
theorem bound_skel_inactive_anim_query_witness :
    (∃ sq, getSkelQuery testCache (some skelWithInactiveAnimPrim) = some sq ∧
      sq.animQuery = none) ∧
    getSkelQuery testCache (some skelWithInactiveAnimPrim) =
      some { skelPath := ["Skel1"], joints := ["A", "C", "B"], animQuery := none } :=
  ⟨@bound_skel_inactive_anim_query testStage rootPrim testCache
      skelWithInactiveAnimPrim skel1Prim inactiveAnimPrim ["Skel1"] ["InactiveAnim"]
      (by decide) (by rfl) (by decide) (by rfl) (by rfl) (by rfl) (by rfl) (by rfl)
      (by rfl) (by rfl) (by rfl),
   by decide⟩

/-- C5: a pure container/group scope (or plain transform) with no
direct geometry is never a skinning target: `GetSkinningQuery` on it is
invalid, for any stage and cache, so in particular even inside a bound
hierarchy with skinnable descendants. -/
theorem scope_never_skinning_target {s : Stage} {c : SkelCache} {prim : Prim}
    (h : prim.primType = PrimType.scope ∨ prim.primType = PrimType.xform) :
    getSkinningQuery s c (some prim) = none := by
  have hg : isGeometryBearing prim = false := by
    unfold isGeometryBearing
    rcases h with h | h <;> rw [h] <;> rfl
  simp [getSkinningQuery, hg]

/-- C5 witness: the scopes `NonRigidScope1`, `NonRigidScope2` and
`RigidScopeParent` under the bound `/InheritedBindings/Model1` are not
skinning targets while the geometry `NonRigidScope1/A` below them is. -/
theorem scope_never_skinning_target_witness :
    getSkinningQuery testStage testCache (some nonRigidScope1Prim) = none ∧
    getSkinningQuery testStage testCache (some nonRigidScope2Prim) = none ∧
    getSkinningQuery testStage testCache (some rigidScopeParentPrim) = none ∧
    getSkinningQuery testStage testCache (some nonRigidScope1APrim) ≠ none :=
  ⟨@scope_never_skinning_target testStage testCache nonRigidScope1Prim (Or.inl rfl),
   @scope_never_skinning_target testStage testCache nonRigidScope2Prim (Or.inl rfl),
   @scope_never_skinning_target testStage testCache rigidScopeParentPrim (Or.inl rfl),
   by decide⟩

/-- C6: a valid skinning target is rigidly deformed exactly when it
authors no per-point skinning weights of its own. -/
theorem skinning_rigid_iff_no_weights {s : Stage} {c : SkelCache} {prim : Prim}
    {q : SkinningQuery} (hq : getSkinningQuery s c (some prim) = some q) :
    (q.isRigidlyDeformed = true ↔ prim.hasSkinningWeights = false) := by
  simp only [getSkinningQuery] at hq
  split at hq
  case isTrue =>
    cases hl : lookupInherited c prim.path with
    | none =>
      rw [hl] at hq
      exact Option.noConfusion hq
    | some sq =>
      rw [hl] at hq
      have hq' := Option.some.inj hq
      rw [← hq']
      unfold SkinningQuery.isRigidlyDeformed
      cases hwt : prim.hasSkinningWeights <;> simp
  case isFalse => exact Option.noConfusion hq

/-- C6 witness: `NonRigidScope1/A` (no authored weights, joint order
`["A", "B", "C"]`) is rigidly deformed with a mapper; `NonRigidScope1/B`
(authored weights) is non-rigidly deformed. -/
theorem skinning_rigid_iff_no_weights_witness :
    (SkinningQuery.isRigidlyDeformed
        { primPath := ["InheritedBindings", "Model1", "NonRigidScope1", "A"]
          rigid := true, jointOrder := ["A", "B", "C"], mapper := some [0, 2, 1] } = true ↔
      nonRigidScope1APrim.hasSkinningWeights = false) ∧
    getSkinningQuery testStage testCache (some nonRigidScope1BPrim) =
      some { primPath := ["InheritedBindings", "Model1", "NonRigidScope1", "B"]
             rigid := false, jointOrder := ["A", "C", "B"], mapper := none } :=
  ⟨@skinning_rigid_iff_no_weights testStage testCache nonRigidScope1APrim
      { primPath := ["InheritedBindings", "Model1", "NonRigidScope1", "A"]
        rigid := true, jointOrder := ["A", "B", "C"], mapper := some [0, 2, 1] }
      (by decide),
   by decide⟩

/-- C7: a valid skinning query has a mapper exactly when its resolved
local joint order differs from the bound skeleton's canonical joint
order. -/
theorem skinning_mapper_iff_order_differs {s : Stage} {c : SkelCache} {prim : Prim}
    {q : SkinningQuery} {sq : SkelQuery}
    (hq : getSkinningQuery s c (some prim) = some q)
    (hsq : lookupInherited c prim.path = some sq) :
    (q.mapper.isSome = true ↔ q.jointOrder ≠ sq.joints) := by
  simp only [getSkinningQuery] at hq
  split at hq
  case isTrue =>
    rw [hsq] at hq
    have hq' := Option.some.inj hq
    rw [← hq']
    show (buildMapper (prim.jointOrderAttr.getD sq.joints) sq.joints).isSome = true ↔
      prim.jointOrderAttr.getD sq.joints ≠ sq.joints
    unfold buildMapper
    split
    case isTrue h => simp [eq_of_beq h]
    case isFalse h =>
      rw [beq_iff_eq] at h
      simp [h]
  case isFalse => exact Option.noConfusion hq

/-- C7 witness: `NonRigidScope2/A` orders its joints `["A", "B", "C"]`,
differing from `/Skel1`'s canonical `["A", "C", "B"]`, so it has a
mapper; `NonRigidScope2/B` follows the canonical order and has none. -/
theorem skinning_mapper_iff_order_differs_witness :
    (Option.isSome
        (SkinningQuery.mapper
          { primPath := ["InheritedBindings", "Model1", "NonRigidScope2", "A"]
            rigid := true, jointOrder := ["A", "B", "C"], mapper := some [0, 2, 1] }) = true ↔
      SkinningQuery.jointOrder
          { primPath := ["InheritedBindings", "Model1", "NonRigidScope2", "A"]
            rigid := true, jointOrder := ["A", "B", "C"], mapper := some [0, 2, 1] } ≠
        SkelQuery.joints
          { skelPath := ["Skel1"], joints := ["A", "C", "B"], animQuery := none }) ∧
    getSkinningQuery testStage testCache (some nonRigidScope2BPrim) =
      some { primPath := ["InheritedBindings", "Model1", "NonRigidScope2", "B"]
             rigid := true, jointOrder := ["A", "C", "B"], mapper := none } :=
  ⟨@skinning_mapper_iff_order_differs testStage testCache nonRigidScope2APrim
      { primPath := ["InheritedBindings", "Model1", "NonRigidScope2", "A"]
        rigid := true, jointOrder := ["A", "B", "C"], mapper := some [0, 2, 1] }
      { skelPath := ["Skel1"], joints := ["A", "C", "B"], animQuery := none }
      (by decide) (by decide),
   by decide⟩

/-- C8: a memoized `GetSkelQuery` access is idempotent: repeating the
access on the state left by a first access returns the very same result
and leaves the cache state unchanged, and no access ever drops the
populated bindings. -/
theorem skelQuery_cache_idempotent (cs : CacheState) (p : Prim) :
    getSkelQueryM (getSkelQueryM cs p).2 p = getSkelQueryM cs p ∧
    (getSkelQueryM cs p).2.base = cs.base := by
  cases h : cs.memo.find? (fun e => e.1 == p.path) with
  | some e => simp [getSkelQueryM, h]
  | none => simp [getSkelQueryM, h, List.find?_cons_of_pos]

/-- C9: `GetAnimQuery` needs no prior `Populate`: on a fresh empty
cache it is valid on an active prim of the recognized animation-source
type, and invalid on a typeless prim or an `Xform` prim. -/
theorem animQuery_no_populate (prim : Prim) :
    (prim.active = true → prim.primType = PrimType.packedJointAnimation →
      getAnimQuery SkelCache.empty (some prim) = some { animPath := prim.path }) ∧
    (prim.primType = PrimType.typeless ∨ prim.primType = PrimType.xform →
      getAnimQuery SkelCache.empty (some prim) = none) := by
  constructor
  · intro ha ht
    simp [getAnimQuery, resolveAnimQuery, ha, ht]
  · intro h
    rcases h with h | h <;> simp [getAnimQuery, resolveAnimQuery, h]

/-- C9 witness: on a fresh cache, `/Anim` (a `PackedJointAnimation`)
yields a valid animation query while the typeless `/Foo` and the
`Xform` `/Bar` do not. -/
theorem animQuery_no_populate_witness :
    getAnimQuery SkelCache.empty (some animPrim) = some { animPath := ["Anim"] } ∧
    getAnimQuery SkelCache.empty (some fooPrim) = none ∧
    getAnimQuery SkelCache.empty (some barPrim) = none :=
  ⟨(animQuery_no_populate animPrim).1 rfl rfl,
   (animQuery_no_populate fooPrim).2 (Or.inl rfl),
   (animQuery_no_populate barPrim).2 (Or.inr rfl)⟩

/-- C10: geometry with a resolvable inherited binding is a valid
skinning target regardless of what its ancestors are, so geometry under
scopes that are themselves rejected as skinning targets still skins. -/
theorem geometry_under_rejected_scope_skinnable {s : Stage} {c : SkelCache}
    {prim : Prim} {sq : SkelQuery}
    (hg : isGeometryBearing prim = true)
    (hb : lookupInherited c prim.path = some sq) :
    (getSkinningQuery s c (some prim)).isSome = true := by
  simp [getSkinningQuery, hg, hb]

/-- C10 witness: `RigidScopeParent/RigidScope/A` and `.../B` have valid
skinning queries although their ancestor scopes `RigidScopeParent` and
`RigidScope` do not. -/
theorem geometry_under_rejected_scope_skinnable_witness :
    (getSkinningQuery testStage testCache (some rigidScopeAPrim)).isSome = true ∧
    (getSkinningQuery testStage testCache (some rigidScopeBPrim)).isSome = true ∧
    getSkinningQuery testStage testCache (some rigidScopeParentPrim) = none ∧
    getSkinningQuery testStage testCache (some rigidScopePrim) = none :=
  ⟨@geometry_under_rejected_scope_skinnable testStage testCache rigidScopeAPrim
      { skelPath := ["Skel1"], joints := ["A", "C", "B"], animQuery := none }
      (by decide) (by decide),
   @geometry_under_rejected_scope_skinnable testStage testCache rigidScopeBPrim
      { skelPath := ["Skel1"], joints := ["A", "C", "B"], animQuery := none }
      (by decide) (by decide),
   by decide, by decide⟩
